import Mathlib

/-
Shallow embedding of src/index.js, an Express service that fetches one
email from an IMAP mailbox by subject substring and returns its parsed,
normalized content.  Pure logic (provider config lookup, the session
flow of fetchEmailBySubjectOptimized, the normalized-record construction,
and the HTTP response mapping of the /fetch-email handler) is embedded
as executable Lean functions; the IMAP server and the MIME parser are
external collaborators and appear as explicit inputs (an ImapEnv record
of their replies).  Timer/race behaviour of the two timeouts is embedded
as an explicit settlement model over completion times.
-/

namespace EmailFetcher

/-- JS `String.prototype.includes`: does `pat` occur as a contiguous
substring of `s`?  Implemented by scanning every start position. -/
def strContains (s pat : String) : Bool :=
  (List.range (s.length + 1)).any fun i => pat.data.isPrefixOf (s.data.drop i)

/-- JS `x || ''` over a possibly-undefined string field: `none` (absent)
and `some ""` both collapse to the empty string. -/
def jsOrEmpty : Option String → String
  | some s => s
  | none => ""

/-- JS truthiness of a possibly-undefined string: truthy iff present and
non-empty. -/
def jsTruthy (o : Option String) : Bool := jsOrEmpty o ≠ ""

/-- Connection parameters returned by `getImapConfig` (src/index.js lines
25-66). -/
structure ImapConfig where
  user : String
  password : String
  host : String
  port : Nat
  tls : Bool
  rejectUnauthorized : Bool
  authTimeout : Nat
  connTimeout : Nat
deriving DecidableEq

/-- JS `String.prototype.toLowerCase` over the code points (the provider
keys are ASCII, where this agrees with JS). -/
def jsToLower (s : String) : String := ⟨s.data.map Char.toLower⟩

/-- The `configs[provider.toLowerCase()]` lookup of src/index.js lines
25-66: three fixed entries, `none` for any other key. -/
def getImapConfig (provider username password : String) : Option ImapConfig :=
  let p := jsToLower provider
  if p = "gmail" then
    some { user := username, password := password, host := "imap.gmail.com",
           port := 993, tls := true, rejectUnauthorized := false,
           authTimeout := 15000, connTimeout := 15000 }
  else if p = "outlook" then
    some { user := username, password := password, host := "outlook.office365.com",
           port := 993, tls := true, rejectUnauthorized := false,
           authTimeout := 15000, connTimeout := 15000 }
  else if p = "yahoo" then
    some { user := username, password := password, host := "imap.mail.yahoo.com",
           port := 993, tls := true, rejectUnauthorized := false,
           authTimeout := 15000, connTimeout := 15000 }
  else none

/-- Output of the MIME parser (`simpleParser`), restricted to the fields
the code reads: `fromText`/`toText` are the `.text` renderings of the
address headers, `date` is the `toISOString` rendering of the parsed
`Date` (absent when the header is missing or invalid), `html`/`text`
are the body parts (absent = JS `undefined`). -/
structure Parsed where
  subject : Option String
  fromText : Option String
  toText : Option String
  date : Option String
  html : Option String
  text : Option String
deriving DecidableEq

/-- Fixed text of the synthesized HTML wrapper before the interpolated
`$\x7bparsed.text\x7d` (src/index.js lines 257-261). -/
def htmlWrapPrefix : String :=
  "<!DOCTYPE html>\n<html>\n<head><meta charset=\"UTF-8\"></head>\n<body style=\"font-family: Arial, sans-serif; padding: 20px; line-height: 1.6;\">\n<pre style=\"white-space: pre-wrap;\">"

/-- Fixed text of the synthesized HTML wrapper after the interpolation
(src/index.js lines 261-263). -/
def htmlWrapSuffix : String := "</pre>\n</body>\n</html>"

/-- The template literal of src/index.js lines 257-263: the text is
spliced between the two fixed halves with no transformation. -/
def synthesizeHtml (text : String) : String :=
  htmlWrapPrefix ++ text ++ htmlWrapSuffix

/-- `let htmlContent = parsed.html || ''; if (!htmlContent && parsed.text)
htmlContent = <wrapper>` (src/index.js lines 254-264). -/
def computeHtml (htmlOpt textOpt : Option String) : String :=
  let htmlContent := jsOrEmpty htmlOpt
  if htmlContent = "" ∧ jsTruthy textOpt then synthesizeHtml (jsOrEmpty textOpt)
  else htmlContent

/-- The normalized record the session stores in `foundEmail`
(src/index.js lines 266-273). -/
structure EmailRecord where
  subject : String
  fromText : String
  toText : String
  date : String
  html : String
  text : String
deriving DecidableEq

/-- Construction of `foundEmail` from the parser output (src/index.js
lines 266-273); `nowIso` is `new Date().toISOString()` at parse time. -/
def buildFoundEmail (parsed : Parsed) (nowIso : String) : EmailRecord :=
  { subject := jsOrEmpty parsed.subject
    fromText := jsOrEmpty parsed.fromText
    toText := jsOrEmpty parsed.toText
    date := match parsed.date with
            | some d => d
            | none => nowIso
    html := computeHtml parsed.html parsed.text
    text := jsOrEmpty parsed.text }

/-- Settlement of the session promise: `resolved` for `resolve(x)`
(`x = none` is `resolve(null)`), `rejected` for `reject(new Error(msg))`. -/
inductive SessionResult where
  | resolved (email : Option EmailRecord)
  | rejected (msg : String)
deriving DecidableEq

/-- Replies of the external collaborators consumed by one session of
`fetchEmailBySubjectOptimized`: the IMAP connection outcome (`some msg`
is an `error` event, `none` is `ready`), the `openBox` reply (total
message count on success), the `search` reply (ordered identifier
sequence), the `simpleParser` outcome, and the wall clock reading taken
at parse time. -/
structure ImapEnv where
  connectError : Option String
  openBox : Except String Nat
  search : Except String (List Nat)
  parse : Except String Parsed
  nowIso : String

/-- Observable trace of one session: its settlement, whether
`imap.search` was ever called, and which UID (if any) was passed to
`imap.fetch`. -/
structure SessionTrace where
  result : SessionResult
  searchIssued : Bool
  fetchedUid : Option Nat
deriving DecidableEq

/-- The `imap.once('error')` handler (src/index.js lines 290-299):
credential-rejection phrases are rewritten to a fixed login-failure
message, anything else is passed through. -/
def classifyConnError (msg : String) : String :=
  if strContains msg "Invalid credentials" || strContains msg "LOGIN failed" then
    "LOGIN failed - Invalid credentials or App Password required"
  else msg

/-- JS `results[results.length - 1]` (src/index.js line 236); only
applied to non-empty sequences. -/
def jsLast (l : List Nat) : Nat := l.getLastD 0

/-- The deterministic session flow of `fetchEmailBySubjectOptimized`
(src/index.js lines 181-309), with the collaborators' replies supplied
by `env`: connect, open INBOX read-only, short-circuit on an empty
mailbox, search by subject, fetch the last identifier, parse, and
settle (the happy path settles via the `end` handler resolving
`foundEmail`). -/
def runSession (env : ImapEnv) : SessionTrace :=
  match env.connectError with
  | some msg =>
    { result := .rejected (classifyConnError msg), searchIssued := false, fetchedUid := none }
  | none =>
    match env.openBox with
    | .error e => { result := .rejected e, searchIssued := false, fetchedUid := none }
    | .ok total =>
      if total = 0 then
        { result := .resolved none, searchIssued := false, fetchedUid := none }
      else
        match env.search with
        | .error e => { result := .rejected e, searchIssued := true, fetchedUid := none }
        | .ok results =>
          if results.isEmpty then
            { result := .resolved none, searchIssued := true, fetchedUid := none }
          else
            let targetUid := jsLast results
            match env.parse with
            | .error e =>
              { result := .rejected e, searchIssued := true, fetchedUid := some targetUid }
            | .ok parsed =>
              { result := .resolved (some (buildFoundEmail parsed env.nowIso)),
                searchIssued := true, fetchedUid := some targetUid }

/-- The JSON body of the POST /fetch-email request; `none` models an
absent field. -/
structure ReqBody where
  provider : Option String
  username : Option String
  password : Option String
  subject : Option String

/-- A caller-facing response of the /fetch-email handler: HTTP status
plus the JSON fields that are present (`none` = field absent from the
JSON body; `durationSeconds` covers both the top-level
`duration_seconds` and the success response's `meta.duration_seconds`). -/
structure HttpResponse where
  status : Nat
  success : Bool
  errorMsg : Option String
  message : Option String
  help : Option String
  data : Option EmailRecord
  durationSeconds : Option String
deriving DecidableEq

/-- The help text of the 401 branch (src/index.js lines 155-162): a
generic sentence, plus a provider URL only when `req.body.provider` is
exactly `gmail` or `outlook` (case-sensitive comparison). -/
def buildAuthHelp (provider : String) : String :=
  let base := "Check your credentials. "
  if provider = "gmail" then
    base ++ "Gmail requires App Password: https://myaccount.google.com/apppasswords"
  else if provider = "outlook" then
    base ++ "Outlook requires App Password: https://account.microsoft.com/security"
  else base

/-- The POST /fetch-email handler (src/index.js lines 71-175): field
validation, provider lookup, then the response mapped from the settled
race result `raced` (a rejection lands in the catch block and is
classified by message text).  `duration` is the elapsed-seconds string
`((Date.now() - startTime) / 1000).toFixed(2)`.  The second component
records whether `fetchEmailBySubjectOptimized` was invoked, i.e.
whether any network connection was attempted. -/
def handleFetchEmail (req : ReqBody) (raced : SessionResult) (duration : String) :
    HttpResponse × Bool :=
  if !jsTruthy req.provider || !jsTruthy req.username || !jsTruthy req.password
      || !jsTruthy req.subject then
    ({ status := 400, success := false, errorMsg := some "Missing required fields",
       message := none, help := none, data := none, durationSeconds := none }, false)
  else
    match getImapConfig (jsOrEmpty req.provider) (jsOrEmpty req.username)
        (jsOrEmpty req.password) with
    | none =>
      ({ status := 400, success := false, errorMsg := some "Invalid provider",
         message := none, help := none, data := none, durationSeconds := none }, false)
    | some _ =>
      match raced with
      | .resolved (some email) =>
        ({ status := 200, success := true, errorMsg := none, message := none, help := none,
           data := some email, durationSeconds := some duration }, true)
      | .resolved none =>
        ({ status := 404, success := false, errorMsg := some "Email not found",
           message := some ("No email with subject containing: \"" ++ jsOrEmpty req.subject ++ "\""),
           help := none, data := none, durationSeconds := none }, true)
      | .rejected msg =>
        if strContains msg "timeout" then
          ({ status := 408, success := false, errorMsg := some "Request timeout",
             message := some "Email search took too long. Try a more specific subject.",
             help := none, data := none, durationSeconds := some duration }, true)
        else if strContains msg "LOGIN failed" || strContains msg "Invalid credentials" then
          ({ status := 401, success := false, errorMsg := some "Authentication failed",
             message := none, help := some (buildAuthHelp (jsOrEmpty req.provider)),
             data := none, durationSeconds := none }, true)
        else
          ({ status := 500, success := false, errorMsg := some msg,
             message := none, help := none, data := none, durationSeconds := none }, true)

/-- A request is valid when all four fields are truthy and the provider
resolves to a config. -/
def validRequest (req : ReqBody) : Prop :=
  jsTruthy req.provider = true ∧ jsTruthy req.username = true ∧
  jsTruthy req.password = true ∧ jsTruthy req.subject = true ∧
  (getImapConfig (jsOrEmpty req.provider) (jsOrEmpty req.username)
    (jsOrEmpty req.password)).isSome = true

/-- Delay of the inner `setTimeout` inside `fetchEmailBySubjectOptimized`
(src/index.js line 194). -/
def innerTimeoutMs : Nat := 85000

/-- Delay of the outer `Promise.race` timer in the handler
(src/index.js line 110). -/
def outerTimeoutMs : Nat := 90000

/-- Message of the inner timer's rejection (src/index.js line 192). -/
def innerTimeoutError : String := "Search timeout"

/-- Message of the outer race timer's rejection (src/index.js line 110). -/
def outerTimeoutError : String := "Search timeout - taking too long"

/-- Settlement of the inner session promise under the inner timer
(src/index.js lines 188-194): `organic` is the settlement the session
would reach on its own, tagged with its completion time in ms (`none` if
the connection never settles); `recordedBeforeInner` says whether
`foundEmail` was recorded before the inner timer's deadline.  If the
session has not settled by `innerTimeoutMs` and no result was recorded,
the timer calls `imap.end()` and rejects with `innerTimeoutError`. -/
def innerSettle (organic : Option (Nat × SessionResult)) (recordedBeforeInner : Bool) :
    Option (Nat × SessionResult) :=
  match organic with
  | some (t, s) =>
    if t < innerTimeoutMs then some (t, s)
    else if recordedBeforeInner then some (t, s)
    else some (innerTimeoutMs, .rejected innerTimeoutError)
  | none =>
    if recordedBeforeInner then none
    else some (innerTimeoutMs, .rejected innerTimeoutError)

/-- The outer `Promise.race` (src/index.js lines 107-112): whichever of
the inner session promise and the 90-second timer settles first wins;
the caller's settlement time never exceeds `outerTimeoutMs`, regardless
of how long the inner session (or its teardown) takes. -/
def raceSettle (inner : Option (Nat × SessionResult)) : Nat × SessionResult :=
  match inner with
  | some (t, s) =>
    if t < outerTimeoutMs then (t, s) else (outerTimeoutMs, .rejected outerTimeoutError)
  | none => (outerTimeoutMs, .rejected outerTimeoutError)

/-- JS promise semantics: of all `resolve`/`reject` calls on one promise,
listed in the order they occur, only the first takes effect. -/
def promiseFirst (settles : List SessionResult) : Option SessionResult :=
  settles.head?

/-- The claim's construction rule for `htmlBody`, stated from the spec's
words for comparison with `computeHtml`: the native HTML part when
present and non-empty; otherwise, when a plain-text part exists, the
wrapper around it; otherwise the empty string. -/
def specHtml (htmlOpt textOpt : Option String) : String :=
  match htmlOpt with
  | some h => if h = "" then (match textOpt with
                              | some t => synthesizeHtml t
                              | none => "") else h
  | none => match textOpt with
            | some t => synthesizeHtml t
            | none => ""

/-- The amended construction rule for `htmlBody`: the fallback wrapper is
produced only when the plain-text part is present AND non-empty. -/
def specHtmlAmended (htmlOpt textOpt : Option String) : String :=
  match htmlOpt with
  | some h => if h = "" then (match textOpt with
                              | some t => if t = "" then "" else synthesizeHtml t
                              | none => "") else h
  | none => match textOpt with
            | some t => if t = "" then "" else synthesizeHtml t
            | none => ""

/-! Concrete fixtures used by witnesses. -/

/-- A well-formed gmail request. -/
def gmailReq : ReqBody :=
  { provider := some "gmail", username := some "user@gmail.com",
    password := some "app-pass", subject := some "Invoice #2024" }

/-- A well-formed yahoo request. -/
def yahooReq : ReqBody :=
  { provider := some "yahoo", username := some "user@yahoo.com",
    password := some "app-pass", subject := some "Invoice #2024" }

/-- Collaborator replies for a session whose search finds identifiers
[5, 12, 41] and whose fetch/parse has not yet produced output. -/
def envC1 : ImapEnv :=
  { connectError := none, openBox := .ok 3, search := .ok [5, 12, 41],
    parse := .error "parse pending", nowIso := "t" }

/-! Helper lemmas shared by the claim theorems. -/

/-- On a non-empty list, the JS indexing `results[results.length - 1]`
is `List.getLast`. -/
theorem jsLast_eq_getLast (l : List Nat) (h : l ≠ []) : jsLast l = l.getLast h := by
  induction l with
  | nil => exact absurd rfl h
  | cons a l ih =>
    cases l with
    | nil => rfl
    | cons b l' => simp [jsLast, List.getLastD]

/-- The fully successful session settles by resolving the normalized
record built from the parser output, after searching and fetching the
last identifier. -/
theorem runSession_success (env : ImapEnv) (total : Nat) (results : List Nat) (parsed : Parsed)
    (hconn : env.connectError = none) (hbox : env.openBox = .ok total) (htot : total ≠ 0)
    (hsearch : env.search = .ok results) (hne : results ≠ []) (hparse : env.parse = .ok parsed) :
    runSession env =
      { result := .resolved (some (buildFoundEmail parsed env.nowIso)),
        searchIssued := true, fetchedUid := some (jsLast results) } := by
  obtain ⟨a, l', rfl⟩ := List.exists_cons_of_ne_nil hne
  simp only [runSession, hconn, hbox, hsearch, hparse, htot, if_neg htot,
    List.isEmpty_cons, if_neg Bool.false_ne_true]
  rfl

/-- A valid request passes validation, so the handler's response is
determined by the raced settlement; in every such case a network
connection was attempted. -/
theorem handle_valid (req : ReqBody) (raced : SessionResult) (duration : String)
    (hv : validRequest req) (cfg : ImapConfig)
    (hcfg : getImapConfig (jsOrEmpty req.provider) (jsOrEmpty req.username)
      (jsOrEmpty req.password) = some cfg) :
    handleFetchEmail req raced duration =
      (match raced with
       | .resolved (some email) =>
         ({ status := 200, success := true, errorMsg := none, message := none, help := none,
            data := some email, durationSeconds := some duration }, true)
       | .resolved none =>
         ({ status := 404, success := false, errorMsg := some "Email not found",
            message := some ("No email with subject containing: \"" ++ jsOrEmpty req.subject ++ "\""),
            help := none, data := none, durationSeconds := none }, true)
       | .rejected msg =>
         if strContains msg "timeout" then
           ({ status := 408, success := false, errorMsg := some "Request timeout",
              message := some "Email search took too long. Try a more specific subject.",
              help := none, data := none, durationSeconds := some duration }, true)
         else if strContains msg "LOGIN failed" || strContains msg "Invalid credentials" then
           ({ status := 401, success := false, errorMsg := some "Authentication failed",
              message := none, help := some (buildAuthHelp (jsOrEmpty req.provider)),
              data := none, durationSeconds := none }, true)
         else
           ({ status := 500, success := false, errorMsg := some msg,
              message := none, help := none, data := none, durationSeconds := none }, true)) := by
  obtain ⟨h1, h2, h3, h4, _⟩ := hv
  simp only [handleFetchEmail, h1, h2, h3, h4, Bool.not_true, Bool.or_self, hcfg,
    Bool.false_or, Bool.or_false, if_neg Bool.false_ne_true]

/-- C1: if the search returns a non-empty ordered sequence of message
identifiers, the UID passed to fetch is exactly the last element of
that sequence (greatest ordinal position in the server-returned order),
irrespective of date headers. -/
theorem fetched_message_is_last_search_result (env : ImapEnv) (total : Nat)
    (results : List Nat) (hconn : env.connectError = none) (hbox : env.openBox = .ok total)
    (htot : total ≠ 0) (hsearch : env.search = .ok results) (hne : results ≠ []) :
    (runSession env).fetchedUid = some (results.getLast hne) := by
  rw [← jsLast_eq_getLast results hne]
  obtain ⟨a, l', rfl⟩ := List.exists_cons_of_ne_nil hne
  cases hp : env.parse with
  | error e =>
    simp only [runSession, hconn, hbox, hsearch, hp, htot, if_neg htot,
      List.isEmpty_cons, if_neg Bool.false_ne_true]
    rfl
  | ok parsed =>
    simp only [runSession, hconn, hbox, hsearch, hp, htot, if_neg htot,
      List.isEmpty_cons, if_neg Bool.false_ne_true]
    rfl

/-- C1 witness: with search results [5, 12, 41], the session fetches
UID 41. -/
theorem fetched_message_is_last_search_result_witness :
    (runSession envC1).fetchedUid = some 41 := by
  have h := fetched_message_is_last_search_result envC1
    3 [5, 12, 41] rfl rfl (by decide) rfl (by decide)
  simpa using h

/-- For a valid request, any rejection whose message contains "timeout"
is mapped by the handler's catch block to HTTP 408. -/
theorem handle_timeout_msg_408 (req : ReqBody) (duration msg : String) (hv : validRequest req)
    (hmsg : strContains msg "timeout" = true) :
    (handleFetchEmail req (.rejected msg) duration).1.status = 408 := by
  obtain ⟨cfg, hcfg⟩ := Option.isSome_iff_exists.mp hv.2.2.2.2
  rw [handle_valid req _ duration hv cfg hcfg]
  simp [hmsg]

/-- C2: when the session reaches no terminal settlement before the
caller-facing deadline, the caller's outcome is a timeout rejection
mapped to HTTP 408; the enforcing timer is the inner 85-second one
(strictly shorter than the outer 90-second race timer) when no result
was recorded by then, and the outer race timer when a result was
recorded but the connection never ended — in which case the caller is
answered at the 90-second mark without waiting for teardown; the
settlement is first-event-wins, so no later resolution (Found or
NotFound) ever replaces it. -/
theorem timeout_outcome_first_wins
    (organic : Option (Nat × SessionResult)) (recorded : Bool)
    (req : ReqBody) (duration : String) (hv : validRequest req)
    (hterm : ∀ t s, organic = some (t, s) → outerTimeoutMs ≤ t) :
    innerTimeoutMs < outerTimeoutMs ∧
    raceSettle (innerSettle organic recorded) =
      (if recorded then (outerTimeoutMs, SessionResult.rejected outerTimeoutError)
       else (innerTimeoutMs, SessionResult.rejected innerTimeoutError)) ∧
    (∀ msg, (raceSettle (innerSettle organic recorded)).2 = .rejected msg →
      (handleFetchEmail req (.rejected msg) duration).1.status = 408) ∧
    (raceSettle (innerSettle organic recorded)).1 ≤ outerTimeoutMs ∧
    (∀ later, promiseFirst ((raceSettle (innerSettle organic recorded)).2 :: later) =
      some (raceSettle (innerSettle organic recorded)).2) := by
  have key : raceSettle (innerSettle organic recorded) =
      (if recorded then (outerTimeoutMs, SessionResult.rejected outerTimeoutError)
       else (innerTimeoutMs, SessionResult.rejected innerTimeoutError)) := by
    cases organic with
    | none =>
      cases recorded <;> simp [innerSettle, raceSettle, innerTimeoutMs, outerTimeoutMs]
    | some ts =>
      obtain ⟨t, s⟩ := ts
      have ht := hterm t s rfl
      simp only [outerTimeoutMs] at ht
      have h1 : ¬ t < 85000 := by omega
      have h2 : ¬ t < 90000 := by omega
      cases recorded <;>
        simp [innerSettle, raceSettle, h1, h2, innerTimeoutMs, outerTimeoutMs]
  refine ⟨by decide, key, ?_, ?_, fun later => rfl⟩
  · intro msg hmsg
    rw [key] at hmsg
    cases recorded with
    | false =>
      simp only [if_neg Bool.false_ne_true] at hmsg
      cases hmsg
      exact handle_timeout_msg_408 req duration innerTimeoutError hv (by decide)
    | true =>
      simp only [if_pos rfl] at hmsg
      cases hmsg
      exact handle_timeout_msg_408 req duration outerTimeoutError hv (by decide)
  · rw [key]
    cases recorded <;> simp [innerTimeoutMs, outerTimeoutMs]

/-- C2 witness: a session with no recorded result and no organic
settlement is rejected by the inner timer at 85000 ms and the handler
answers 408. -/
theorem timeout_outcome_first_wins_witness :
    raceSettle (innerSettle none false) =
      (innerTimeoutMs, SessionResult.rejected innerTimeoutError) ∧
    (handleFetchEmail gmailReq (.rejected innerTimeoutError) "90.00").1.status = 408 := by
  have h := timeout_outcome_first_wins none false gmailReq "90.00"
    ⟨rfl, rfl, rfl, rfl, by decide⟩ (by simp)
  exact ⟨by simpa using h.2.1, h.2.2.1 innerTimeoutError (by rw [h.2.1]; rfl)⟩

/-- The gmail fixture request is valid. -/
theorem gmailReq_valid : validRequest gmailReq := ⟨rfl, rfl, rfl, rfl, by decide⟩

/-- The yahoo fixture request is valid. -/
theorem yahooReq_valid : validRequest yahooReq := ⟨rfl, rfl, rfl, rfl, by decide⟩

/-- Collaborator replies for a session that opens an empty mailbox. -/
def envZero : ImapEnv :=
  { connectError := none, openBox := .ok 0, search := .ok [],
    parse := .error "unused", nowIso := "t" }

/-- C3: for a session that connects and opens the mailbox, the outcome
is NotFound (resolve(null), mapped to HTTP 404) exactly when the mailbox
reports zero total messages or the search returns an empty identifier
sequence; in the zero-total case the session short-circuits and no
search call is issued. -/
theorem notFound_iff_empty_mailbox_or_empty_search
    (env : ImapEnv) (total : Nat) (req : ReqBody) (duration : String)
    (hconn : env.connectError = none) (hbox : env.openBox = .ok total)
    (hv : validRequest req) :
    ((runSession env).result = .resolved none ↔ (total = 0 ∨ env.search = .ok [])) ∧
    (total = 0 → (runSession env).searchIssued = false) ∧
    ((handleFetchEmail req (runSession env).result duration).1.status = 404 ↔
      (runSession env).result = .resolved none) := by
  obtain ⟨cfg, hcfg⟩ := Option.isSome_iff_exists.mp hv.2.2.2.2
  refine ⟨?_, ?_, ?_⟩
  · by_cases htot : total = 0
    · simp [runSession, hconn, hbox, htot]
    · cases hs : env.search with
      | error e => simp [runSession, hconn, hbox, hs, htot]
      | ok results =>
        cases results with
        | nil => simp [runSession, hconn, hbox, hs, htot]
        | cons a l =>
          cases hp : env.parse with
          | error e => simp [runSession, hconn, hbox, hs, hp, htot]
          | ok parsed => simp [runSession, hconn, hbox, hs, hp, htot]
  · intro h0
    simp [runSession, hconn, hbox, h0]
  · rw [handle_valid req _ duration hv cfg hcfg]
    cases hres : (runSession env).result with
    | resolved email =>
      cases email with
      | none => simp
      | some e => simp
    | rejected msg =>
      by_cases h1 : strContains msg "timeout" = true
      · simp [h1]
      · by_cases h2 : (strContains msg "LOGIN failed" || strContains msg "Invalid credentials") = true
        · simp [h1, h2]
        · simp [h1, h2]

/-- C3 witness: an empty mailbox yields resolve(null), no search call,
and a 404 response. -/
theorem notFound_iff_empty_mailbox_or_empty_search_witness :
    (runSession envZero).result = .resolved none ∧
    (runSession envZero).searchIssued = false ∧
    (handleFetchEmail gmailReq (runSession envZero).result "0.10").1.status = 404 := by
  have h := notFound_iff_empty_mailbox_or_empty_search envZero 0 gmailReq "0.10"
    rfl rfl gmailReq_valid
  exact ⟨h.1.mpr (Or.inl rfl), h.2.1 rfl, h.2.2.mpr (h.1.mpr (Or.inl rfl))⟩

/-- Parser output with no HTML part and an empty (but present)
plain-text part. -/
def emptyTextParsed : Parsed :=
  { subject := none, fromText := none, toText := none, date := none,
    html := none, text := some "" }

set_option maxRecDepth 4000 in
/-- C4 counterexample: on a message whose plain-text part is present but
empty, the code produces an empty htmlBody (the empty string is falsy in
JS), while the claim's rule, which synthesizes the wrapper whenever a
plain-text part exists, produces the wrapper document. -/
theorem htmlBody_claim_fails_on_empty_text_part :
    (buildFoundEmail emptyTextParsed "t").html = "" ∧
    specHtml emptyTextParsed.html emptyTextParsed.text = synthesizeHtml "" ∧
    (buildFoundEmail emptyTextParsed "t").html ≠
      specHtml emptyTextParsed.html emptyTextParsed.text := by decide

/-- C4 (amended): the htmlBody of the normalized output equals the
native HTML part when it is present and non-empty; otherwise, when a
NON-EMPTY plain-text part exists, the fixed wrapper document containing
the exact text content; otherwise the empty string. -/
theorem htmlBody_matches_amended_rule (parsed : Parsed) (nowIso : String) :
    (buildFoundEmail parsed nowIso).html = specHtmlAmended parsed.html parsed.text := by
  cases hh : parsed.html with
  | none =>
    cases ht : parsed.text with
    | none =>
      simp [buildFoundEmail, computeHtml, specHtmlAmended, jsOrEmpty, jsTruthy, hh, ht]
    | some t =>
      by_cases h0 : t = "" <;>
        simp [buildFoundEmail, computeHtml, specHtmlAmended, jsOrEmpty, jsTruthy, hh, ht, h0]
  | some h =>
    by_cases hh0 : h = ""
    · cases ht : parsed.text with
      | none =>
        simp [buildFoundEmail, computeHtml, specHtmlAmended, jsOrEmpty, jsTruthy, hh, ht, hh0]
      | some t =>
        by_cases h0 : t = "" <;>
          simp [buildFoundEmail, computeHtml, specHtmlAmended, jsOrEmpty, jsTruthy,
            hh, ht, hh0, h0]
    · cases ht : parsed.text with
      | none =>
        simp [buildFoundEmail, computeHtml, specHtmlAmended, jsOrEmpty, jsTruthy, hh, ht, hh0]
      | some t =>
        by_cases h0 : t = "" <;>
          simp [buildFoundEmail, computeHtml, specHtmlAmended, jsOrEmpty, jsTruthy,
            hh, ht, hh0, h0]

/-- The fixed rejection message produced by the error handler when the
server reports a credential rejection (src/index.js line 295). -/
def authRejectMsg : String := "LOGIN failed - Invalid credentials or App Password required"

/-- C5: a credential rejection on a yahoo request yields 401, but its
help text is only the generic sentence with no provider remediation URL
at all, while the same rejection on a gmail request does carry the
gmail-specific URL — the 401 branch handles only gmail and outlook. -/
theorem yahoo_auth_help_lacks_provider_url :
    (handleFetchEmail yahooReq (.rejected authRejectMsg) "1.00").1.status = 401 ∧
    (handleFetchEmail yahooReq (.rejected authRejectMsg) "1.00").1.help =
      some "Check your credentials. " ∧
    strContains "Check your credentials. " "https" = false ∧
    (handleFetchEmail gmailReq (.rejected authRejectMsg) "1.00").1.help =
      some "Check your credentials. Gmail requires App Password: https://myaccount.google.com/apppasswords" := by
  decide

/-- C6 counterexample: the 404 not-found response carries no
duration_seconds field at all. -/
theorem duration_absent_on_404 :
    (handleFetchEmail gmailReq (.resolved none) "0.10").1.status = 404 ∧
    (handleFetchEmail gmailReq (.resolved none) "0.10").1.durationSeconds = none := by decide

/-- C6 (amended): the elapsed duration is included exactly in the
success (200) and timeout (408) responses; the 400, 401, 404 and 500
responses omit it. -/
theorem duration_only_on_success_and_timeout (req : ReqBody) (raced : SessionResult)
    (d : String) :
    (handleFetchEmail req raced d).1.durationSeconds = some d ↔
      ((handleFetchEmail req raced d).1.status = 200 ∨
       (handleFetchEmail req raced d).1.status = 408) := by
  unfold handleFetchEmail
  by_cases hval : (!jsTruthy req.provider || !jsTruthy req.username || !jsTruthy req.password
      || !jsTruthy req.subject) = true
  · simp [hval]
  · cases hcfg : getImapConfig (jsOrEmpty req.provider) (jsOrEmpty req.username)
        (jsOrEmpty req.password) with
    | none => simp [hval, hcfg]
    | some cfg =>
      cases raced with
      | resolved email => cases email <;> simp [hval, hcfg]
      | rejected msg =>
        by_cases h1 : strContains msg "timeout" = true
        · simp [hval, hcfg, h1]
        · by_cases h2 : (strContains msg "LOGIN failed"
              || strContains msg "Invalid credentials") = true
          · simp [hval, hcfg, h1, h2]
          · simp [hval, hcfg, h1, h2]

/-- Parser output for a dated-less message that still has content. -/
def datelessParsed : Parsed :=
  { subject := some "Invoice #2024", fromText := some "a@b.example",
    toText := some "c@d.example", date := none, html := some "<p>x</p>",
    text := some "x" }

/-- Collaborator replies for a fully successful session whose parsed
message lacks a date header. -/
def envDateless : ImapEnv :=
  { connectError := none, openBox := .ok 3, search := .ok [5, 12, 41],
    parse := .ok datelessParsed, nowIso := "2026-10-12T00:00:00.000Z" }

/-- C7: on a successful session the normalized date equals the parsed
header date when one is present, and the parse-time clock reading
otherwise; the missing-date case still settles as Found. -/
theorem date_is_header_or_parse_time (env : ImapEnv) (total : Nat) (results : List Nat)
    (parsed : Parsed)
    (hconn : env.connectError = none) (hbox : env.openBox = .ok total) (htot : total ≠ 0)
    (hsearch : env.search = .ok results) (hne : results ≠ []) (hparse : env.parse = .ok parsed) :
    (runSession env).result = .resolved (some (buildFoundEmail parsed env.nowIso)) ∧
    (∀ d, parsed.date = some d → (buildFoundEmail parsed env.nowIso).date = d) ∧
    (parsed.date = none → (buildFoundEmail parsed env.nowIso).date = env.nowIso) := by
  refine ⟨?_, ?_, ?_⟩
  · rw [runSession_success env total results parsed hconn hbox htot hsearch hne hparse]
  · intro d hd
    simp [buildFoundEmail, hd]
  · intro hd
    simp [buildFoundEmail, hd]

/-- C7 witness: a message with no date header is still Found and its
normalized date is the parse-time clock reading. -/
theorem date_is_header_or_parse_time_witness :
    (runSession envDateless).result =
      .resolved (some (buildFoundEmail datelessParsed "2026-10-12T00:00:00.000Z")) ∧
    (buildFoundEmail datelessParsed "2026-10-12T00:00:00.000Z").date =
      "2026-10-12T00:00:00.000Z" := by
  have h := date_is_header_or_parse_time envDateless 3 [5, 12, 41] datelessParsed
    rfl rfl (by decide) rfl (by decide) rfl
  exact ⟨h.1, h.2.2 rfl⟩

/-- Parser output for a message with neither an HTML part nor a text
part. -/
def contentlessParsed : Parsed :=
  { subject := some "Invoice #2024", fromText := some "a@b.example",
    toText := some "c@d.example", date := some "2026-01-01T00:00:00.000Z",
    html := none, text := none }

/-- Collaborator replies for a fully successful session whose parsed
message has no content parts. -/
def envContentless : ImapEnv :=
  { connectError := none, openBox := .ok 3, search := .ok [5, 12, 41],
    parse := .ok contentlessParsed, nowIso := "t" }

/-- C8: a message with neither a (truthy) HTML part nor a (truthy) text
part yields empty html and text fields in the normalized output, and
the session still settles as Found and is answered with HTTP 200. -/
theorem contentless_message_still_found (env : ImapEnv) (total : Nat) (results : List Nat)
    (parsed : Parsed) (req : ReqBody) (duration : String)
    (hconn : env.connectError = none) (hbox : env.openBox = .ok total) (htot : total ≠ 0)
    (hsearch : env.search = .ok results) (hne : results ≠ []) (hparse : env.parse = .ok parsed)
    (hhtml : jsTruthy parsed.html = false) (htext : jsTruthy parsed.text = false)
    (hv : validRequest req) :
    (buildFoundEmail parsed env.nowIso).html = "" ∧
    (buildFoundEmail parsed env.nowIso).text = "" ∧
    (runSession env).result = .resolved (some (buildFoundEmail parsed env.nowIso)) ∧
    (handleFetchEmail req (runSession env).result duration).1.status = 200 ∧
    (handleFetchEmail req (runSession env).result duration).1.success = true := by
  obtain ⟨cfg, hcfg⟩ := Option.isSome_iff_exists.mp hv.2.2.2.2
  have hhtml' : jsOrEmpty parsed.html = "" := by
    simpa [jsTruthy] using hhtml
  have htext' : jsOrEmpty parsed.text = "" := by
    simpa [jsTruthy] using htext
  have hsess := runSession_success env total results parsed hconn hbox htot hsearch hne hparse
  refine ⟨?_, ?_, by rw [hsess], ?_, ?_⟩
  · simp [buildFoundEmail, computeHtml, hhtml', htext]
  · simp [buildFoundEmail, htext']
  · rw [hsess, handle_valid req _ duration hv cfg hcfg]
  · rw [hsess, handle_valid req _ duration hv cfg hcfg]

/-- C8 witness: a content-less message is returned with 200, empty html
and empty text. -/
theorem contentless_message_still_found_witness :
    (buildFoundEmail contentlessParsed "t").html = "" ∧
    (buildFoundEmail contentlessParsed "t").text = "" ∧
    (handleFetchEmail gmailReq (runSession envContentless).result "0.20").1.status = 200 := by
  have h := contentless_message_still_found envContentless 3 [5, 12, 41] contentlessParsed
    gmailReq "0.20" rfl rfl (by decide) rfl (by decide) rfl rfl rfl gmailReq_valid
  exact ⟨h.1, h.2.1, h.2.2.2.1⟩

/-- The provider lookup misses exactly when the lowercased provider is
none of the three supported keys. -/
theorem getImapConfig_eq_none_iff (p u w : String) :
    getImapConfig p u w = none ↔
      ¬ (jsToLower p = "gmail" ∨ jsToLower p = "outlook" ∨ jsToLower p = "yahoo") := by
  unfold getImapConfig
  by_cases h1 : jsToLower p = "gmail"
  · simp [h1]
  · by_cases h2 : jsToLower p = "outlook"
    · simp [h1, h2]
    · by_cases h3 : jsToLower p = "yahoo"
      · simp [h1, h2, h3]
      · simp [h1, h2, h3]

/-- C9: a request missing any of the four fields (an empty string counts
as missing) or naming a provider outside gmail/outlook/yahoo
(case-insensitively) is answered 400, and no network connection is
attempted. -/
theorem invalid_request_rejected_without_connection (req : ReqBody) (raced : SessionResult)
    (duration : String)
    (h : jsTruthy req.provider = false ∨ jsTruthy req.username = false ∨
         jsTruthy req.password = false ∨ jsTruthy req.subject = false ∨
         ¬ (jsToLower (jsOrEmpty req.provider) = "gmail" ∨
            jsToLower (jsOrEmpty req.provider) = "outlook" ∨
            jsToLower (jsOrEmpty req.provider) = "yahoo")) :
    (handleFetchEmail req raced duration).1.status = 400 ∧
    (handleFetchEmail req raced duration).2 = false := by
  rcases h with h | h | h | h | h
  · simp [handleFetchEmail, h]
  · simp [handleFetchEmail, h]
  · simp [handleFetchEmail, h]
  · simp [handleFetchEmail, h]
  · have hcfg := (getImapConfig_eq_none_iff (jsOrEmpty req.provider) (jsOrEmpty req.username)
      (jsOrEmpty req.password)).mpr h
    unfold handleFetchEmail
    by_cases hval : (!jsTruthy req.provider || !jsTruthy req.username || !jsTruthy req.password
        || !jsTruthy req.subject) = true
    · simp [hval]
    · simp [hval, hcfg]

/-- A request whose subject is the empty string. -/
def emptySubjectReq : ReqBody :=
  { provider := some "gmail", username := some "user@gmail.com",
    password := some "app-pass", subject := some "" }

/-- A request naming an unsupported provider. -/
def protonReq : ReqBody :=
  { provider := some "protonmail", username := some "user@proton.example",
    password := some "app-pass", subject := some "Invoice #2024" }

/-- C9 witness: an empty-string subject and an unsupported provider are
both answered 400 with no connection attempted. -/
theorem invalid_request_rejected_without_connection_witness :
    (handleFetchEmail emptySubjectReq (.resolved none) "0.00").1.status = 400 ∧
    (handleFetchEmail emptySubjectReq (.resolved none) "0.00").2 = false ∧
    (handleFetchEmail protonReq (.resolved none) "0.00").1.status = 400 ∧
    (handleFetchEmail protonReq (.resolved none) "0.00").2 = false := by
  have h1 := invalid_request_rejected_without_connection emptySubjectReq (.resolved none)
    "0.00" (Or.inr (Or.inr (Or.inr (Or.inl (by decide)))))
  have h2 := invalid_request_rejected_without_connection protonReq (.resolved none)
    "0.00" (Or.inr (Or.inr (Or.inr (Or.inr (by decide)))))
  exact ⟨h1.1, h1.2, h2.1, h2.2⟩

/-- If the pattern occurs at some position within bounds, `strContains`
reports true. -/
theorem strContains_of_exists (s pat : String) (i : Nat) (hi : i ≤ s.length)
    (h : pat.data.isPrefixOf (s.data.drop i) = true) : strContains s pat = true := by
  unfold strContains
  rw [List.any_eq_true]
  exact ⟨i, List.mem_range.mpr (Nat.lt_succ_of_le hi), h⟩

/-- C10: when the htmlBody is synthesized from the plain-text part, the
text is spliced verbatim between the two fixed halves of the wrapper
template, with no HTML escaping, so the exact text (including any
markup-significant characters) occurs as a contiguous substring of the
produced document. -/
theorem synthesized_html_interpolates_text_verbatim (t : String) (h : t ≠ "") :
    computeHtml none (some t) = htmlWrapPrefix ++ t ++ htmlWrapSuffix ∧
    strContains (computeHtml none (some t)) t = true := by
  have heq : computeHtml none (some t) = htmlWrapPrefix ++ t ++ htmlWrapSuffix := by
    simp [computeHtml, jsOrEmpty, jsTruthy, synthesizeHtml, h]
  refine ⟨heq, ?_⟩
  rw [heq]
  apply strContains_of_exists _ _ htmlWrapPrefix.length
  · rw [String.length_append, String.length_append]
    omega
  · have hdata : (htmlWrapPrefix ++ t ++ htmlWrapSuffix).data
        = htmlWrapPrefix.data ++ (t.data ++ htmlWrapSuffix.data) := by
      rw [String.data_append, String.data_append, List.append_assoc]
    have hlen : htmlWrapPrefix.length = htmlWrapPrefix.data.length := rfl
    rw [hdata, hlen, List.drop_left, List.isPrefixOf_iff_prefix]
    exact List.prefix_append _ _

/-- C10 witness: a text consisting of markup-significant characters,
including a literal closing pre tag, appears verbatim in the synthesized
document. -/
theorem synthesized_html_interpolates_text_verbatim_witness :
    computeHtml none (some "</pre><p>&<b>") =
      htmlWrapPrefix ++ "</pre><p>&<b>" ++ htmlWrapSuffix ∧
    strContains (computeHtml none (some "</pre><p>&<b>")) "</pre><p>&<b>" = true :=
  synthesized_html_interpolates_text_verbatim "</pre><p>&<b>" (by decide)

end EmailFetcher
